import Mathlib

/-
Verification development for the Playwright-to-Slack notification scripts.

The repository consists of several near-duplicate variants of one script that
parses a Playwright JSON report, posts a summary message to a Slack channel,
and uploads failure screenshots via Slack's external-upload protocol.  This
file gives a shallow embedding of the pure data-flow of those scripts:

  * report statistics parsing ("main" variant of sendSlackNotification.js,
    and the "tests/passed/failed" variant in part_001);
  * the two failure extractors: the collectFailedTests function of
    sendSlackNotification.js's first script (lines 104-119) and the
    SlackNotifier.collectFailedTests method of part_003 (lines 262-288);
  * summary-message composition (sendSlackNotification.js lines 122-128);
  * the three-step external-upload protocol (uploadFile, lines 42-81) and the
    sequential upload loops of the orchestrators;
  * the filename sanitization transform of part_001's uploadScreenshot
    (lines 29-32);
  * browser-label inference from artifact paths (second script of
    sendSlackNotification.js, lines 197-200).

Filesystem and network effects are abstracted: directory scans become list
parameters, each remote call becomes an explicit response value or a
"String to Except String Unit" function, and a thrown JS exception becomes
an Except.error that propagates exactly as the try/catch structure of the
source dictates.
-/

namespace PlaywrightSlack

/-- JS truthiness-aware defaulting for an optional string, modelling the
JS expression "o || d" (both undefined and the empty string are falsy). -/
def jsOr (o : Option String) (d : String) : String :=
  match o with
  | none => d
  | some s => if s = "" then d else s

/-- Text of an optional string inside a JS template literal: an undefined
value prints as the literal text "undefined". -/
def jsStr (o : Option String) : String :=
  match o with
  | none => "undefined"
  | some s => s

/-- The failure predicate shared by every extractor variant:
status === 'failed' || status === 'unexpected'. -/
def isFailedStatus (st : Option String) : Bool :=
  st == some "failed" || st == some "unexpected"

/-- Substring search on char lists, modelling JS String.prototype.includes. -/
def hasSubstrAux (pat : List Char) : List Char → Bool
  | [] => List.isPrefixOf pat []
  | c :: rest => List.isPrefixOf pat (c :: rest) || hasSubstrAux pat rest

/-- Whether the string s contains pat as a substring (JS s.includes(pat)). -/
def hasSubstr (s pat : String) : Bool :=
  hasSubstrAux pat.toList s.toList

/-- A test title in the JSON report is either a plain string or an array of
title segments. -/
inductive TitleVal where
  | str (s : String)
  | arr (l : List String)
deriving DecidableEq

/-- Rendering of a title as in the extractors:
Array.isArray(title) ? title.join(' ▶ ') : title. -/
def titleText : TitleVal → String
  | TitleVal.str s => s
  | TitleVal.arr l => String.intercalate " ▶ " l

/-- The stats object of a Playwright JSON report.  Different report schemas
populate different counters; absent counters are modelled as none. -/
structure Stats where
  expected : Option Nat
  unexpected : Option Nat
  tests : Option Nat
  passed : Option Nat
  failed : Option Nat
deriving DecidableEq

/-- The triple of counters that feeds the summary message. -/
structure RunStats where
  total : Nat
  passed : Nat
  failed : Nat
deriving DecidableEq

/-- Stats parsing of sendSlackNotification.js lines 98-100:
totalTests = (stats.expected || 0) + (stats.unexpected || 0);
passed = stats.expected || 0; failed = stats.unexpected || 0. -/
def parseStatsMain (st : Stats) : RunStats :=
  { total := st.expected.getD 0 + st.unexpected.getD 0
    passed := st.expected.getD 0
    failed := st.unexpected.getD 0 }

/-- Stats parsing of part_001 lines 95-97:
totalTests = stats.tests || 0; passed = stats.passed || 0;
failed = stats.failed || 0. -/
def parseStatsPart001 (st : Stats) : RunStats :=
  { total := st.tests.getD 0
    passed := st.passed.getD 0
    failed := st.failed.getD 0 }

/-- Summary-message composition of sendSlackNotification.js lines 122-128:
a header, three count lines, and, only when failed > 0, a failure-case
section followed by the collected failure lines, joined with newlines. -/
def buildMessage (rs : RunStats) (failedTestsDetails : List String) : String :=
  String.intercalate "\n"
    (["*🚨 Playwright 테스트 결과*",
      "• 전체: " ++ toString rs.total,
      "• 성공: " ++ toString rs.passed,
      "• 실패: " ++ toString rs.failed] ++
      (if rs.failed > 0 then "\n*❌ 실패 케이스:*" :: failedTestsDetails else []))

namespace Legacy

/-- A node of the report tree as the first script of sendSlackNotification.js
sees it: a dynamic object that may carry a status, a title, a projectName,
a list of nested test objects and a list of nested suite objects.  The
script applies the same field accesses to suites and to tests, so one node
type models both. -/
inductive NodeL where
  | mk (status : Option String) (title : TitleVal) (projectName : Option String)
      (tests : Option (List NodeL)) (suites : Option (List NodeL))

/-- The status field of a node. -/
def NodeL.status : NodeL → Option String
  | NodeL.mk st _ _ _ _ => st

/-- The title field of a node. -/
def NodeL.title : NodeL → TitleVal
  | NodeL.mk _ t _ _ _ => t

/-- The projectName field of a node (never read by this extractor). -/
def NodeL.projectName : NodeL → Option String
  | NodeL.mk _ _ p _ _ => p

/-- The tests field of a node. -/
def NodeL.tests : NodeL → Option (List NodeL)
  | NodeL.mk _ _ _ ts _ => ts

/-- The suites field of a node. -/
def NodeL.suites : NodeL → Option (List NodeL)
  | NodeL.mk _ _ _ _ ss => ss

mutual
/-- collectFailedTests of sendSlackNotification.js lines 104-116: if the node
has a tests field, walk that list; for each test push a failure line when its
status is failed/unexpected, and recurse into the test itself when the test
has a suites field.  Nothing else is visited: specs are never read, and a
suites field on the node itself is never walked. -/
def collectFailedTests : NodeL → List String
  | NodeL.mk _ _ _ tests _ =>
    match tests with
    | none => []
    | some ts => collectTestList ts

/-- The forEach loop over a tests list inside collectFailedTests. -/
def collectTestList : List NodeL → List String
  | [] => []
  | t :: rest =>
    (if isFailedStatus t.status then ["- " ++ titleText t.title] else []) ++
    (match t.suites with
     | none => []
     | some _ => collectFailedTests t) ++
    collectTestList rest
end

/-- The top-level driver, sendSlackNotification.js lines 117-119:
results.suites.forEach(suite => collectFailedTests(suite, arr)). -/
def collectAll (roots : List NodeL) : List String :=
  (roots.map collectFailedTests).flatten

mutual
/-- Number of nodes anywhere in the tree (in tests lists and suites lists,
recursively, the node itself included) whose status is failed/unexpected. -/
def failedNodeCount : NodeL → Nat
  | NodeL.mk st _ _ tests suites =>
    (if isFailedStatus st then 1 else 0) +
    (match tests with | none => 0 | some ts => failedNodesCount ts) +
    (match suites with | none => 0 | some ss => failedNodesCount ss)

/-- Sum of failedNodeCount over a list of nodes. -/
def failedNodesCount : List NodeL → Nat
  | [] => 0
  | n :: rest => failedNodeCount n + failedNodesCount rest
end

end Legacy

namespace Notifier

/-- A test-attempt record as read by SlackNotifier.collectFailedTests of
part_003 (lines 262-288): a status, a title (string or array) and an
optional projectName. -/
structure TestN where
  status : Option String
  title : TitleVal
  projectName : Option String
deriving DecidableEq

/-- A spec node: a title, its own status, and an optional list of nested
test-attempts.  The attempt list may be absent (none) or present but
empty (some []); JS truthiness distinguishes neither from a non-empty
list, because an empty array is truthy. -/
structure SpecN where
  title : Option String
  status : Option String
  tests : Option (List TestN)
deriving DecidableEq

/-- A suite node of the report tree: optional spec list, optional direct
test list, optional child-suite list. -/
inductive SuiteN where
  | mk (specs : Option (List SpecN)) (tests : Option (List TestN))
      (suites : Option (List SuiteN))

/-- The processTests closure of part_003 lines 264-271: for each test whose
status is failed/unexpected, push "- {title} ▶ {projectName or the default
label Unknown Browser}".  Call sites never pass the second argument, so the
default always applies when projectName is falsy. -/
def processTests : List TestN → List String
  | [] => []
  | test :: rest =>
    (if isFailedStatus test.status then
      ["- " ++ titleText test.title ++ " ▶ " ++ jsOr test.projectName "Unknown Browser"]
     else []) ++ processTests rest

/-- The per-spec branch of part_003 lines 274-279: if the spec has a tests
field (truthy even when the array is empty), drain it; otherwise, when the
spec's own status is failed/unexpected, push one line for the spec itself. -/
def processSpecN (sp : SpecN) : List String :=
  match sp.tests with
  | some ts => processTests ts
  | none => if isFailedStatus sp.status then ["- " ++ jsStr sp.title] else []

/-- The forEach loop over suite.specs. -/
def processSpecsN : List SpecN → List String
  | [] => []
  | sp :: rest => processSpecN sp ++ processSpecsN rest

mutual
/-- SlackNotifier.collectFailedTests of part_003 lines 262-288: drain the
spec list, then the direct test list, then recurse into every child suite,
concatenating the collected lines in that order. -/
def collectFailedTests : SuiteN → List String
  | SuiteN.mk specs tests suites =>
    (match specs with | none => [] | some sl => processSpecsN sl) ++
    (match tests with | none => [] | some ts => processTests ts) ++
    (match suites with | none => [] | some subs => collectFailedTestsList subs)

/-- The forEach loop over suite.suites inside collectFailedTests. -/
def collectFailedTestsList : List SuiteN → List String
  | [] => []
  | s :: rest => collectFailedTests s ++ collectFailedTestsList rest
end

/-- The test-attempts a spec holds (empty when the field is absent). -/
def specAttempts (sp : SpecN) : List TestN := sp.tests.getD []

/-- All test-attempts held by a list of specs, in order. -/
def specsAttempts : List SpecN → List TestN
  | [] => []
  | sp :: rest => specAttempts sp ++ specsAttempts rest

mutual
/-- Every leaf test-attempt of a suite tree, in the visitation order of
collectFailedTests: attempts inside specs, then direct attempts, then the
attempts of child suites, recursively. -/
def suiteAttempts : SuiteN → List TestN
  | SuiteN.mk specs tests suites =>
    (match specs with | none => [] | some sl => specsAttempts sl) ++
    (match tests with | none => [] | some ts => ts) ++
    (match suites with | none => [] | some subs => suitesAttempts subs)

/-- suiteAttempts summed over a list of suites. -/
def suitesAttempts : List SuiteN → List TestN
  | [] => []
  | s :: rest => suiteAttempts s ++ suitesAttempts rest
end

/-- A spec that carries no attempt list at all (the field is absent, not an
empty array) and whose own status is failed/unexpected.  Such a spec is
itself reported as one failure. -/
def isAttemptlessFailedSpec (sp : SpecN) : Bool :=
  sp.tests.isNone && isFailedStatus sp.status

/-- Count of attemptless failed specs in a spec list. -/
def attemptlessFailedSpecs : List SpecN → Nat
  | [] => 0
  | sp :: rest => (if isAttemptlessFailedSpec sp then 1 else 0) + attemptlessFailedSpecs rest

mutual
/-- Count of attemptless failed specs in a whole suite tree. -/
def attemptlessFailedSpecCount : SuiteN → Nat
  | SuiteN.mk specs _ suites =>
    (match specs with | none => 0 | some sl => attemptlessFailedSpecs sl) +
    (match suites with | none => 0 | some subs => attemptlessFailedSpecCountList subs)

/-- attemptlessFailedSpecCount summed over a list of suites. -/
def attemptlessFailedSpecCountList : List SuiteN → Nat
  | [] => 0
  | s :: rest => attemptlessFailedSpecCount s + attemptlessFailedSpecCountList rest
end

end Notifier

/-- A response to files.getUploadURLExternal: the ok flag, an optional error
code, the one-time upload URL and the issued file id. -/
structure SlotResponse where
  ok : Bool
  error : Option String
  upload_url : String
  file_id : String
deriving DecidableEq

/-- A response to files.completeUploadExternal. -/
structure CompleteResponse where
  ok : Bool
  error : Option String
deriving DecidableEq

/-- uploadFile of sendSlackNotification.js lines 42-81, with the filesystem
and the three remote calls abstracted into arguments.  The finalize call is a
function of the id it is handed, making the threading of file_id from step 1
through step 3 explicit; every failure is rethrown to the caller as an
Except.error, exactly as the JS function rethrows from its catch block. -/
def uploadFile (fileExists : Bool) (filePath : String)
    (urlResponse : SlotResponse) (postResult : Except String Unit)
    (completeResponse : String → CompleteResponse) : Except String String :=
  if fileExists = false then
    Except.error ("파일이 존재하지 않음: " ++ filePath)
  else if urlResponse.ok = false then
    Except.error ("업로드 URL 요청 실패: " ++ jsStr urlResponse.error)
  else
    match postResult with
    | Except.error e => Except.error e
    | Except.ok _ =>
      if (completeResponse urlResponse.file_id).ok = false then
        Except.error ("파일 처리 실패: " ++ jsStr (completeResponse urlResponse.file_id).error)
      else Except.ok urlResponse.file_id

/-- The sequential upload loop shared by the orchestrators
(sendSlackNotification.js lines 150-152, part_001 lines 147-150, part_003
lines 336-339): for (const f of files) await upload(f).  Each upload either
succeeds or throws; a throw propagates out of the loop to main's catch block.
The result records which files had an upload attempted, in order, and the
propagated error if one occurred: on the first failing file the loop stops,
so later files are never attempted. -/
def runUploads (upload : String → Except String Unit) :
    List String → List String × Option String
  | [] => ([], none)
  | f :: rest =>
    match upload f with
    | Except.ok _ =>
      let r := runUploads upload rest
      (f :: r.1, r.2)
    | Except.error e => ([f], some e)

/-- Browser inference of sendSlackNotification.js lines 197-200:
the first of chromium, firefox, webkit found as a substring of the absolute
path, else the label unknown. -/
def inferBrowser (absolutePath : String) : String :=
  if hasSubstr absolutePath "chromium" then "chromium"
  else if hasSubstr absolutePath "firefox" then "firefox"
  else if hasSubstr absolutePath "webkit" then "webkit"
  else "unknown"

/-- SlackNotifier.processScreenshots of sendSlackNotification.js lines
309-321, with the directory scan abstracted into the screenshots list: every
found screenshot is uploaded in order, with no correlation of any kind
against the collected failure records; uploadScreenshot throws on failure and
the loop has no per-file catch. -/
def processScreenshots (upload : String → Except String Unit)
    (screenshots : List String) : List String × Option String :=
  runUploads upload screenshots

/-- An observable step of the orchestrator's artifact phase. -/
inductive OrchEvent where
  | scanned
  | uploaded (f : String)
deriving DecidableEq

/-- The artifact phase of sendSlackNotification.js main (lines 144-156): only
when failed > 0 is the test-results directory scanned and each found
screenshot uploaded.  The scan result is a parameter; events record what the
phase did. -/
def artifactPhaseMain (failed : Nat) (scanResult : List String)
    (upload : String → Except String Unit) : List OrchEvent :=
  if failed > 0 then
    OrchEvent.scanned :: ((runUploads upload scanResult).1.map OrchEvent.uploaded)
  else []

/-- The artifact phase of part_002 main (lines 209-244): the screenshot scan
(findFailedTestScreenshots, line 218) runs unconditionally, before the
summary is even composed, and the uploads are gated only on the scan having
found files - the failed counter plays no part. -/
def artifactPhasePart002 (failed : Nat) (scanResult : List String)
    (upload : String → Except String Unit) : List OrchEvent :=
  OrchEvent.scanned ::
    (if scanResult.length > 0 then ((runUploads upload scanResult).1.map OrchEvent.uploaded)
     else [])

/-- The JS word-character class backslash-w: ASCII letters, digits and the
underscore. -/
def isWordChar (c : Char) : Bool :=
  ('a' ≤ c && c ≤ 'z') || ('A' ≤ c && c ≤ 'Z') || ('0' ≤ c && c ≤ '9') || c = '_'

/-- The JS whitespace class backslash-s, modelled by its ASCII members:
space, tab, line feed, carriage return, vertical tab and form feed. -/
def isSpaceChar (c : Char) : Bool :=
  c = ' ' || c = '\t' || c = '\n' || c = '\r' || c = '\x0b' || c = '\x0c'

/-- Membership in the character class of part_001 line 30, [word, whitespace,
dot, hyphen]: characters outside it are replaced. -/
def keepChar (c : Char) : Bool :=
  isWordChar c || isSpaceChar c || c = '.' || c = '-'

/-- First replace of part_001 line 30: every character outside the kept class
becomes an underscore. -/
def stripChars (l : List Char) : List Char :=
  l.map (fun c => if keepChar c then c else '_')

/-- Second replace of part_001 line 31: each maximal run of whitespace
becomes a single underscore.  The boolean tracks whether the previous
character belonged to the current whitespace run. -/
def collapseAux : Bool → List Char → List Char
  | _, [] => []
  | inRun, c :: rest =>
    if isSpaceChar c then
      (if inRun then [] else ['_']) ++ collapseAux true rest
    else
      c :: collapseAux false rest

/-- The filename sanitization transform of part_001 lines 29-32 (identical in
part_003 lines 51-55): strip characters outside [word, whitespace, dot,
hyphen] to underscores, collapse whitespace runs to single underscores, then
truncate to at most 80 characters. -/
def sanitizeFileName (s : String) : String :=
  ((collapseAux false (stripChars s.toList)).take 80).asString

/-- A leaf attempt with failed status, nested below a child suite. -/
def exLeaf : Legacy.NodeL :=
  Legacy.NodeL.mk (some "failed") (TitleVal.str "a") (some "chromium") none none

/-- A child suite holding the failed attempt in its tests list. -/
def exChild : Legacy.NodeL :=
  Legacy.NodeL.mk none (TitleVal.str "child suite") none (some [exLeaf]) none

/-- A root suite whose only content is a child suite (no direct tests). -/
def exRoot : Legacy.NodeL :=
  Legacy.NodeL.mk none (TitleVal.str "root suite") none none (some [exChild])

/-- A root suite holding a failed attempt directly in its tests list; the
attempt carries projectName chromium. -/
def exFlatRoot : Legacy.NodeL :=
  Legacy.NodeL.mk none (TitleVal.str "root suite") none (some [exLeaf]) none

/-- A report expressing its counters in the expected/unexpected vocabulary. -/
def statsExpectedVocab : Stats :=
  { expected := some 2, unexpected := some 1, tests := none, passed := none, failed := none }

/-- A report expressing the same counter values in the passed/failed
vocabulary. -/
def statsPassedVocab : Stats :=
  { expected := none, unexpected := none, tests := none, passed := some 2, failed := some 1 }

/-- A report whose tests counter disagrees with passed + failed. -/
def statsWithTestsCounter : Stats :=
  { expected := none, unexpected := none, tests := some 5, passed := some 2, failed := some 1 }

/-- A spec whose attempt list is present but empty and whose own status is
failed. -/
def emptyTestsFailedSpec : Notifier.SpecN :=
  { title := some "empty spec", status := some "failed", tests := some [] }

/-- A suite holding only the present-but-empty failed spec. -/
def exSuiteEmptySpec : Notifier.SuiteN :=
  Notifier.SuiteN.mk (some [emptyTestsFailedSpec]) none none

/-- An upload behavior that fails on a.png and succeeds elsewhere. -/
def failOnA (f : String) : Except String Unit :=
  if f = "a.png" then Except.error "boom" else Except.ok ()

/-- An upload behavior that always succeeds. -/
def alwaysOk (_ : String) : Except String Unit :=
  Except.ok ()

/-- A report with one unexpected failure in the expected/unexpected
vocabulary. -/
def statsOneFailure : Stats :=
  { expected := some 0, unexpected := some 1, tests := none, passed := none, failed := none }

/-- A spec whose attempt list is absent and whose own status is unexpected. -/
def attemptlessSpec : Notifier.SpecN :=
  { title := some "lonely spec", status := some "unexpected", tests := none }

/-- A successful upload-slot response issuing file id F123. -/
def exSlot : SlotResponse :=
  { ok := true, error := none, upload_url := "https://upload.example", file_id := "F123" }

/-- A finalize response that accepts whatever id it is handed. -/
def exComplete (_ : String) : CompleteResponse :=
  { ok := true, error := none }

theorem processTests_length (ts : List Notifier.TestN) :
    (Notifier.processTests ts).length =
      (ts.filter (fun t => isFailedStatus t.status)).length := by
  induction ts with
  | nil => rfl
  | cons t rest ih =>
    by_cases h : isFailedStatus t.status <;>
      simp [Notifier.processTests, List.filter_cons, h, ih]

theorem processSpecN_length (sp : Notifier.SpecN) :
    (Notifier.processSpecN sp).length =
      ((Notifier.specAttempts sp).filter (fun t => isFailedStatus t.status)).length +
        (if Notifier.isAttemptlessFailedSpec sp then 1 else 0) := by
  cases h : sp.tests with
  | some ts =>
    simp [Notifier.processSpecN, h, Notifier.specAttempts, Notifier.isAttemptlessFailedSpec,
      processTests_length]
  | none =>
    by_cases hf : isFailedStatus sp.status <;>
      simp [Notifier.processSpecN, h, Notifier.specAttempts, Notifier.isAttemptlessFailedSpec, hf]

theorem processSpecsN_length (l : List Notifier.SpecN) :
    (Notifier.processSpecsN l).length =
      ((Notifier.specsAttempts l).filter (fun t => isFailedStatus t.status)).length +
        Notifier.attemptlessFailedSpecs l := by
  induction l with
  | nil => rfl
  | cons sp rest ih =>
    simp [Notifier.processSpecsN, Notifier.specsAttempts, Notifier.attemptlessFailedSpecs,
      List.filter_append, ih, processSpecN_length]
    omega

mutual
theorem collectFailedTests_length_aux : ∀ s : Notifier.SuiteN,
    (Notifier.collectFailedTests s).length =
      ((Notifier.suiteAttempts s).filter (fun t => isFailedStatus t.status)).length +
        Notifier.attemptlessFailedSpecCount s
  | Notifier.SuiteN.mk specs tests suites => by
    cases suites with
    | none =>
      cases specs <;> cases tests <;>
        simp [Notifier.collectFailedTests, Notifier.suiteAttempts,
          Notifier.attemptlessFailedSpecCount, List.filter_append, processSpecsN_length,
          processTests_length] <;> omega
    | some subs =>
      have hsubs := collectFailedTestsList_length_aux subs
      cases specs <;> cases tests <;>
        simp [Notifier.collectFailedTests, Notifier.suiteAttempts,
          Notifier.attemptlessFailedSpecCount, List.filter_append, processSpecsN_length,
          processTests_length, hsubs] <;> omega

theorem collectFailedTestsList_length_aux : ∀ l : List Notifier.SuiteN,
    (Notifier.collectFailedTestsList l).length =
      ((Notifier.suitesAttempts l).filter (fun t => isFailedStatus t.status)).length +
        Notifier.attemptlessFailedSpecCountList l
  | [] => by rfl
  | s :: rest => by
    simp [Notifier.collectFailedTestsList, Notifier.suitesAttempts,
      Notifier.attemptlessFailedSpecCountList, List.filter_append,
      collectFailedTests_length_aux s, collectFailedTestsList_length_aux rest]
    omega
end

/-- C1 counterexample: the collectFailedTests of sendSlackNotification.js's
first script (lines 104-119) misses failed leaves nested inside a child
suite.  The tree [exRoot] holds exactly one failed leaf test-attempt (inside
exRoot's child suite), yet the extraction run by main over the root suites
produces no FailureRecord at all, so the extraction does not produce exactly
one record per failed leaf. -/
theorem legacy_extractor_misses_nested_failure :
    Legacy.collectAll [exRoot] = [] ∧ Legacy.failedNodesCount [exRoot] = 1 :=
  ⟨rfl, rfl⟩

/-- C1 (amended): for the SlackNotifier.collectFailedTests extractor of
part_003 (lines 262-288), the number of extracted records equals the number
of leaf test-attempts with status failed/unexpected - across spec lists,
direct test lists, and recursively visited child suites, without duplication
between the shapes - plus exactly one record per spec whose attempt list is
absent and whose own status is failed/unexpected.  The legacy extractor of
sendSlackNotification.js's first script does not enjoy this property: it
reads only each root suite's direct test list. -/
theorem notifier_extraction_counts_each_failure_once (s : Notifier.SuiteN) :
    (Notifier.collectFailedTests s).length =
      ((Notifier.suiteAttempts s).filter (fun t => isFailedStatus t.status)).length +
        Notifier.attemptlessFailedSpecCount s :=
  collectFailedTests_length_aux s

/-- C2 counterexample: with two artifacts where the first upload fails, the
second artifact's upload is never attempted and the failure propagates out of
the loop (aborting the run), contradicting per-file error isolation. -/
theorem upload_failure_skips_remaining_and_aborts :
    (runUploads failOnA ["a.png", "b.png"]).1 = ["a.png"] ∧
      "b.png" ∉ (runUploads failOnA ["a.png", "b.png"]).1 ∧
      (runUploads failOnA ["a.png", "b.png"]).2 = some "boom" :=
  ⟨rfl, by decide, rfl⟩

/-- C2 (amended): the upload loop of main attempts uploads strictly in order
up to and including the first failing artifact; artifacts after it are not
attempted, and the error propagates to main's catch block, aborting the
overall run (there is no per-file isolation). -/
theorem uploads_stop_at_first_failure (upload : String → Except String Unit)
    (pre suf : List String) (f e : String)
    (hpre : ∀ x ∈ pre, upload x = Except.ok ())
    (hf : upload f = Except.error e) :
    runUploads upload (pre ++ f :: suf) = (pre ++ [f], some e) := by
  induction pre with
  | nil => simp [runUploads, hf]
  | cons a rest ih =>
    have ha := hpre a (by simp)
    have ih' := ih (fun x hx => hpre x (by simp [hx]))
    simp [runUploads, ha, ih']

/-- Witness for C2's amended theorem at a concrete input. -/
theorem uploads_stop_at_first_failure_witness :
    (∀ x ∈ ["b.png"], failOnA x = Except.ok ()) ∧
      failOnA "a.png" = Except.error "boom" ∧
      runUploads failOnA (["b.png"] ++ "a.png" :: ["c.png"]) = (["b.png", "a.png"], some "boom") :=
  ⟨by intro x hx; simp at hx; subst hx; rfl, rfl,
    uploads_stop_at_first_failure failOnA ["b.png"] ["c.png"] "a.png" "boom"
      (by intro x hx; simp at hx; subst hx; rfl) rfl⟩

/-- C3 counterexample: neither stats parser recognizes both vocabularies.
Two reports carrying the value pair (2, 1), one as expected/unexpected and
one as passed/failed, produce different summary text under the
sendSlackNotification.js parser, and also under the part_001 parser. -/
theorem vocabulary_is_not_tolerated :
    buildMessage (parseStatsMain statsExpectedVocab) [] ≠
        buildMessage (parseStatsMain statsPassedVocab) [] ∧
      buildMessage (parseStatsPart001 statsExpectedVocab) [] ≠
        buildMessage (parseStatsPart001 statsPassedVocab) [] :=
  ⟨by decide, by decide⟩

/-- C3 (amended): the sendSlackNotification.js parser recognizes only the
expected/unexpected vocabulary, defaulting missing counters to zero; a report
expressed purely in the passed/failed vocabulary therefore parses as the
all-zero RunStats and yields the all-zero summary text, so the two
vocabularies agree only when the expected/unexpected counters are absent. -/
theorem passed_failed_report_parses_as_zero (st : Stats)
    (h1 : st.expected = none) (h2 : st.unexpected = none) :
    parseStatsMain st = { total := 0, passed := 0, failed := 0 } ∧
      buildMessage (parseStatsMain st) [] =
        buildMessage { total := 0, passed := 0, failed := 0 } [] := by
  have hz : parseStatsMain st = { total := 0, passed := 0, failed := 0 } := by
    simp [parseStatsMain, h1, h2]
  exact ⟨hz, by rw [hz]⟩

/-- Witness for C3's amended theorem at a concrete input. -/
theorem passed_failed_report_parses_as_zero_witness :
    statsPassedVocab.expected = none ∧ statsPassedVocab.unexpected = none ∧
      parseStatsMain statsPassedVocab = { total := 0, passed := 0, failed := 0 } :=
  ⟨rfl, rfl, (passed_failed_report_parses_as_zero statsPassedVocab rfl rfl).1⟩

/-- C4 counterexample: the part_001 parser takes the reported total from the
separate tests counter rather than computing it; on a report with tests 5,
passed 2, failed 1 the summary total is 5 while passed + failed is 3. -/
theorem part001_total_not_sum_of_counts :
    (parseStatsPart001 statsWithTestsCounter).total = 5 ∧
      (parseStatsPart001 statsWithTestsCounter).passed +
          (parseStatsPart001 statsWithTestsCounter).failed = 3 ∧
      (parseStatsPart001 statsWithTestsCounter).total ≠
        (parseStatsPart001 statsWithTestsCounter).passed +
          (parseStatsPart001 statsWithTestsCounter).failed :=
  ⟨rfl, rfl, by decide⟩

/-- C4 (amended): the sendSlackNotification.js parser does compute the
summary total as the sum of the passed and failed counts for every report;
the part_001 variant instead reads its total from the reported tests
counter, which may disagree with that sum. -/
theorem main_total_is_sum_of_passed_failed (st : Stats) :
    (parseStatsMain st).total = (parseStatsMain st).passed + (parseStatsMain st).failed :=
  rfl

/-- C5 counterexample: the failure line composed for a failed attempt whose
projectName is chromium is "- a": the browser label does not appear in the
line (and hence not that section of the summary), contradicting the claimed
"- title browserLabel" line format. -/
theorem failure_line_omits_browser_label :
    Legacy.collectAll [exFlatRoot] = ["- a"] ∧
      exLeaf.projectName = some "chromium" ∧
      hasSubstr "- a" "chromium" = false ∧
      buildMessage (parseStatsMain statsOneFailure) (Legacy.collectAll [exFlatRoot]) =
        "*🚨 Playwright 테스트 결과*\n• 전체: 1\n• 성공: 0\n• 실패: 1\n\n*❌ 실패 케이스:*\n- a" :=
  ⟨rfl, rfl, by decide, by decide⟩

/-- C5 (amended): the summary message consists of the header line and the
three count lines, and contains the failure-case section exactly when the
failed count is positive; when present, the section lists the extracted
failure lines in extraction order, each of the form "- title" without a
browser label. -/
theorem message_has_fixed_structure (rs : RunStats) (roots : List Legacy.NodeL) :
    (rs.failed = 0 →
      buildMessage rs (Legacy.collectAll roots) =
        String.intercalate "\n"
          ["*🚨 Playwright 테스트 결과*",
           "• 전체: " ++ toString rs.total,
           "• 성공: " ++ toString rs.passed,
           "• 실패: " ++ toString rs.failed]) ∧
    (0 < rs.failed →
      buildMessage rs (Legacy.collectAll roots) =
        String.intercalate "\n"
          (["*🚨 Playwright 테스트 결과*",
            "• 전체: " ++ toString rs.total,
            "• 성공: " ++ toString rs.passed,
            "• 실패: " ++ toString rs.failed,
            "\n*❌ 실패 케이스:*"] ++ Legacy.collectAll roots)) := by
  constructor
  · intro h
    simp [buildMessage, h]
  · intro h
    rw [buildMessage, if_pos h]
    simp

/-- Witness for C5's amended theorem at a concrete input. -/
theorem message_has_fixed_structure_witness :
    0 < ({ total := 1, passed := 0, failed := 1 : RunStats }).failed ∧
      buildMessage { total := 1, passed := 0, failed := 1 } (Legacy.collectAll []) =
        String.intercalate "\n"
          (["*🚨 Playwright 테스트 결과*",
            "• 전체: " ++ toString ({ total := 1, passed := 0, failed := 1 : RunStats }).total,
            "• 성공: " ++ toString ({ total := 1, passed := 0, failed := 1 : RunStats }).passed,
            "• 실패: " ++ toString ({ total := 1, passed := 0, failed := 1 : RunStats }).failed,
            "\n*❌ 실패 케이스:*"] ++ Legacy.collectAll []) :=
  ⟨by decide,
    (message_has_fixed_structure { total := 1, passed := 0, failed := 1 } []).2 (by decide)⟩

/-- C6 counterexample: an artifact whose inferred browser label (webkit) is
contained in no failure record's browser label (the only record's label is
chromium) is nevertheless uploaded: processScreenshots attempts every found
screenshot and performs no correlation at all. -/
theorem uncorrelated_artifact_still_uploaded :
    inferBrowser "test-results/foo-webkit/test-failed-1.png" = "webkit" ∧
      hasSubstr (jsOr exLeaf.projectName "Unknown Browser") "webkit" = false ∧
      (processScreenshots alwaysOk ["test-results/foo-webkit/test-failed-1.png"]).1 =
        ["test-results/foo-webkit/test-failed-1.png"] :=
  ⟨by decide, by decide, rfl⟩

theorem runUploads_all_ok (upload : String → Except String Unit) :
    ∀ shots : List String, (∀ x ∈ shots, upload x = Except.ok ()) →
      runUploads upload shots = (shots, none)
  | [], _ => rfl
  | a :: rest, h => by
    have ha := h a (by simp)
    have ih := runUploads_all_ok upload rest (fun x hx => h x (by simp [hx]))
    simp [runUploads, ha, ih]

/-- C6 (amended): every artifact found by the screenshot scan has an upload
attempted (here: when no upload throws, the attempted list is the whole found
list), independently of any correlation with the extracted failure records;
the inferred browser label is used only to compose the upload display name,
never as a filter. -/
theorem every_found_screenshot_attempted (upload : String → Except String Unit)
    (shots : List String) (h : ∀ x ∈ shots, upload x = Except.ok ()) :
    (processScreenshots upload shots).1 = shots := by
  have := runUploads_all_ok upload shots h
  simp [processScreenshots, this]

/-- Witness for C6's amended theorem at a concrete input. -/
theorem every_found_screenshot_attempted_witness :
    (∀ x ∈ ["s1.png", "s2.png"], alwaysOk x = Except.ok ()) ∧
      (processScreenshots alwaysOk ["s1.png", "s2.png"]).1 = ["s1.png", "s2.png"] :=
  ⟨fun x _ => rfl, every_found_screenshot_attempted alwaysOk ["s1.png", "s2.png"] (fun x _ => rfl)⟩

theorem mem_collapseAux {c : Char} : ∀ (b : Bool) (l : List Char),
    c ∈ collapseAux b l → c = '_' ∨ (c ∈ l ∧ isSpaceChar c = false)
  | b, [], h => by simp [collapseAux] at h
  | b, a :: rest, h => by
    by_cases ha : isSpaceChar a
    · simp [collapseAux, ha] at h
      rcases b with _ | _
      · simp at h
        rcases h with h | h
        · exact Or.inl h
        · rcases mem_collapseAux true rest h with h' | ⟨h1, h2⟩
          · exact Or.inl h'
          · exact Or.inr ⟨by simp [h1], h2⟩
      · simp at h
        rcases mem_collapseAux true rest h with h' | ⟨h1, h2⟩
        · exact Or.inl h'
        · exact Or.inr ⟨by simp [h1], h2⟩
    · simp [collapseAux, ha] at h
      rcases h with h | h
      · subst h
        exact Or.inr ⟨by simp, by simpa using ha⟩
      · rcases mem_collapseAux false rest h with h' | ⟨h1, h2⟩
        · exact Or.inl h'
        · exact Or.inr ⟨by simp [h1], h2⟩

theorem stripChars_mem {c : Char} {l : List Char} (h : c ∈ stripChars l) :
    keepChar c = true := by
  simp [stripChars] at h
  rcases h with ⟨a, _, ha⟩
  by_cases hk : keepChar a
  · simp [hk] at ha; subst ha; exact hk
  · simp [hk] at ha; subst ha; rfl

theorem stripChars_id {l : List Char} (h : ∀ c ∈ l, keepChar c = true) :
    stripChars l = l := by
  simp only [stripChars]
  induction l with
  | nil => rfl
  | cons a rest ih =>
    simp only [List.map_cons, h a (by simp), if_true]
    rw [ih (fun c hc => h c (by simp [hc]))]

theorem collapseAux_id : ∀ l : List Char, (∀ c ∈ l, isSpaceChar c = false) →
    collapseAux false l = l
  | [], _ => rfl
  | a :: rest, h => by
    have ha := h a (by simp)
    simp [collapseAux, ha]
    exact collapseAux_id rest (fun c hc => h c (by simp [hc]))

/-- C7: the filename sanitization transform of part_001 lines 29-32 is
idempotent: one application already yields a string of word, dot and hyphen
characters of length at most 80, on which the strip step, the whitespace
collapse and the truncation all act as the identity. -/
theorem sanitizeFileName_idempotent (s : String) :
    sanitizeFileName (sanitizeFileName s) = sanitizeFileName s := by
  unfold sanitizeFileName
  set l := (collapseAux false (stripChars s.toList)).take 80 with hl
  have htl : (l.asString).toList = l := by
    simp [List.asString, String.toList]
  rw [htl]
  have hmem : ∀ c ∈ l, keepChar c = true ∧ isSpaceChar c = false := by
    intro c hc
    have hc' : c ∈ collapseAux false (stripChars s.toList) := List.take_subset _ _ hc
    rcases mem_collapseAux false _ hc' with h | ⟨h1, h2⟩
    · subst h; exact ⟨rfl, rfl⟩
    · exact ⟨stripChars_mem h1, h2⟩
  rw [stripChars_id (fun c hc => (hmem c hc).1)]
  rw [collapseAux_id l (fun c hc => (hmem c hc).2)]
  have hlen : l.length ≤ 80 := by
    rw [hl]
    simpa using List.length_take_le 80 (collapseAux false (stripChars s.toList))
  rw [List.take_of_length_le hlen]

/-- C8 counterexample: a spec with a present-but-empty attempt list and its
own status failed yields no FailureRecord at all: the JS guard
"if (spec.tests)" is satisfied by an empty array (arrays are truthy), so the
spec's own status is never consulted and the claimed single record is not
produced. -/
theorem empty_attempt_list_failed_spec_unreported :
    emptyTestsFailedSpec.tests = some [] ∧
      isFailedStatus emptyTestsFailedSpec.status = true ∧
      Notifier.collectFailedTests exSuiteEmptySpec = [] :=
  ⟨rfl, rfl, rfl⟩

/-- C8 (amended): a spec whose attempt list is absent (the field is missing,
not merely empty) and whose own status is failed/unexpected is reported as
exactly one FailureRecord, both by the per-spec branch and through the whole
extractor; a present-but-empty attempt list instead yields no record. -/
theorem attemptless_failed_spec_reported_once (sp : Notifier.SpecN)
    (h1 : sp.tests = none) (h2 : isFailedStatus sp.status = true) :
    Notifier.processSpecN sp = ["- " ++ jsStr sp.title] ∧
      Notifier.collectFailedTests (Notifier.SuiteN.mk (some [sp]) none none) =
        ["- " ++ jsStr sp.title] := by
  have hp : Notifier.processSpecN sp = ["- " ++ jsStr sp.title] := by
    simp [Notifier.processSpecN, h1, h2]
  exact ⟨hp, by simp [Notifier.collectFailedTests, Notifier.processSpecsN, hp]⟩

/-- Witness for C8's amended theorem at a concrete input. -/
theorem attemptless_failed_spec_reported_once_witness :
    attemptlessSpec.tests = none ∧ isFailedStatus attemptlessSpec.status = true ∧
      Notifier.processSpecN attemptlessSpec = ["- " ++ jsStr attemptlessSpec.title] :=
  ⟨rfl, rfl, (attemptless_failed_spec_reported_once attemptlessSpec rfl rfl).1⟩

/-- C9 counterexample: the part_002 orchestrator scans for screenshots
unconditionally and uploads whenever the scan found files, even when the
reported failure count is zero. -/
theorem part002_scans_and_uploads_without_failures :
    artifactPhasePart002 0 ["leftover.png"] alwaysOk =
      [OrchEvent.scanned, OrchEvent.uploaded "leftover.png"] :=
  rfl

/-- C9 (amended): the sendSlackNotification.js orchestrator scans and uploads
only when the reported failure count is positive: with zero failures its
artifact phase performs no step at all, and any step it does perform implies
a positive failure count.  The part_002 orchestrator does not have this
property: its scan is unconditional. -/
theorem main_scans_and_uploads_only_on_failures (failed : Nat) (scanResult : List String)
    (upload : String → Except String Unit) :
    (failed = 0 → artifactPhaseMain failed scanResult upload = []) ∧
    (∀ ev ∈ artifactPhaseMain failed scanResult upload, 0 < failed) := by
  constructor
  · intro h
    simp [artifactPhaseMain, h]
  · intro ev hev
    by_contra hf
    have h0 : failed = 0 := by omega
    simp [artifactPhaseMain, h0] at hev

/-- Witness for C9's amended theorem at a concrete input. -/
theorem main_scans_and_uploads_only_on_failures_witness :
    (0 : Nat) = 0 ∧ artifactPhaseMain 0 ["x.png"] alwaysOk = [] :=
  ⟨rfl, (main_scans_and_uploads_only_on_failures 0 ["x.png"] alwaysOk).1 rfl⟩

/-- C10: when the file exists, the slot request is ok, the byte transfer
succeeds and the finalize response is ok, uploadFile returns exactly the
file id issued by the slot request; the definition passes that same id,
unchanged, to the finalize call. -/
theorem uploadFile_returns_issued_file_id (filePath : String) (slot : SlotResponse)
    (complete : String → CompleteResponse)
    (hslot : slot.ok = true) (hdone : (complete slot.file_id).ok = true) :
    uploadFile true filePath slot (Except.ok ()) complete = Except.ok slot.file_id := by
  simp [uploadFile, hslot, hdone]

/-- Witness for C10's theorem at a concrete input. -/
theorem uploadFile_returns_issued_file_id_witness :
    exSlot.ok = true ∧ (exComplete exSlot.file_id).ok = true ∧
      uploadFile true "shot.png" exSlot (Except.ok ()) exComplete = Except.ok "F123" :=
  ⟨rfl, rfl, uploadFile_returns_issued_file_id "shot.png" exSlot exComplete rfl rfl⟩

end PlaywrightSlack
